import Mathlib

/-!
Verification of the mode-resolution and metrics-aggregation contract of the
kubernetes-metrics backend (`src/backend/main.py`).

The Python module is embedded shallowly:

* The module-level Kubernetes config detection (`main.py` lines 17-32) becomes
  `resolveConfig`.  The outcome of each `config.load_*` library call is an
  oracle input of type `LoadResult`; an exception the `try`/`except` chain does
  not catch is returned as `Except.error` (it propagates out of the module).
* The two data endpoints `GET /` and `GET /node-usage` become the pure
  functions `metrics` and `node_usage`.  They receive the startup state
  (`AppState`, the module globals `mode`, `core_v1`, `metrics_api`), the
  outcome of each outbound Kubernetes API call (`CallResult`, with
  `ApiException` mirroring `kubernetes.client.exceptions.ApiException`), and
  the value `datetime.utcnow()` would return (`DateTime`).  A Python handler
  that returns a dict is sent by FastAPI with transport status 200, so
  "returns normally with status 200" is embedded as "the Lean function is
  total and returns a `Json` value".
* Response dicts become `Json` object values with fields in source order.
-/

namespace KubernetesMetrics

/-- JSON values, the codomain of both request handlers.  Python dicts become
`obj` with fields listed in the source's construction order. -/
inductive Json where
  | null : Json
  | str : String → Json
  | num : Int → Json
  | arr : List Json → Json
  | obj : List (String × Json) → Json

/-- First-match association lookup, the semantics of `d[key]` / `d.get(key)`
on the dict literals the handlers build. -/
def lookupField : List (String × Json) → String → Option Json
  | [], _ => none
  | (k, v) :: rest, key => if k = key then some v else lookupField rest key

/-- Field access on a JSON value: `some` on an object that has the key,
`none` otherwise (in Python a missing key or a non-dict raises `KeyError` /
`TypeError`, which the handlers' `except Exception` arms catch). -/
def Json.lookup : Json → String → Option Json
  | .obj fields, key => lookupField fields key
  | _, _ => none

/-- Outcome of one `config.load_incluster_config()` /
`config.load_kube_config()` library call: it returns, raises
`kubernetes.config.ConfigException`, or raises some other exception. -/
inductive LoadResult where
  | success
  | configException
  | otherError (msg : String)
deriving DecidableEq

/-- The module globals set by the config-detection block: `mode` (a string,
as in the source) and whether `core_v1` / `metrics_api` are non-`None`. -/
structure AppState where
  mode : String
  core_v1 : Bool
  metrics_api : Bool
deriving DecidableEq

/-- Embedding of `main.py` lines 17-32, the module-level config detection.
`incluster` is the outcome of `config.load_incluster_config()`, `kubeconfig`
the outcome of `config.load_kube_config()` (only consulted on the
`ConfigException` fallback path, as in the source).  An exception that is not
`ConfigException` is not caught and propagates (`Except.error`).  The result
state is the module globals every later request reads; nothing in the module
writes them again, so the selected mode is immutable afterwards. -/
def resolveConfig : LoadResult → LoadResult → Except String AppState
  | .success, _ => .ok ⟨"kubernetes", true, true⟩
  | .configException, .success => .ok ⟨"local", true, true⟩
  | .configException, .configException => .ok ⟨"mock", false, false⟩
  | .configException, .otherError e => .error e
  | .otherError e, _ => .error e

/-- Embedding of `kubernetes.client.exceptions.ApiException`: the fields the
handlers read.  (`e.body` is a string in the cases the handlers format.) -/
structure ApiException where
  status : Int
  reason : String
  body : String
deriving DecidableEq

/-- Outcome of one outbound Kubernetes API call from a handler: it returns a
value, raises `ApiException`, or raises any other exception (carried as the
free text `str(e)` would produce). -/
inductive CallResult (α : Type) where
  | ok (val : α)
  | apiError (e : ApiException)
  | failure (msg : String)
deriving DecidableEq

/-- The value `datetime.utcnow()` returns: a naive UTC civil time.  Python's
`datetime` guarantees `1 <= year <= 9999`, `1 <= month <= 12`,
`1 <= day <= 31`, `hour <= 23`, `minute <= 59`, `second <= 59`,
`microsecond <= 999999` (see `ValidDT`). -/
structure DateTime where
  year : Nat
  month : Nat
  day : Nat
  hour : Nat
  minute : Nat
  second : Nat
  microsecond : Nat
deriving DecidableEq

/-- Field ranges `datetime.datetime` enforces on construction. -/
def ValidDT (t : DateTime) : Prop :=
  1 ≤ t.year ∧ t.year ≤ 9999 ∧ 1 ≤ t.month ∧ t.month ≤ 12 ∧
  1 ≤ t.day ∧ t.day ≤ 31 ∧ t.hour ≤ 23 ∧ t.minute ≤ 59 ∧
  t.second ≤ 59 ∧ t.microsecond ≤ 999999

instance (t : DateTime) : Decidable (ValidDT t) := by
  unfold ValidDT; infer_instance

/-- Decimal digit as a character, for the zero-padded fields of
`datetime.isoformat()`. -/
def digit (n : Nat) : Char := Char.ofNat (48 + n)

/-- Character sequence of `datetime.isoformat()`:
`YYYY-MM-DDTHH:MM:SS` followed by `.ffffff` exactly when the microsecond
field is nonzero, each field zero-padded to its fixed width (the widths are
exact for the field ranges of `ValidDT`). -/
def isoChars (t : DateTime) : List Char :=
  [digit (t.year / 1000), digit (t.year / 100 % 10),
   digit (t.year / 10 % 10), digit (t.year % 10), '-',
   digit (t.month / 10), digit (t.month % 10), '-',
   digit (t.day / 10), digit (t.day % 10), 'T',
   digit (t.hour / 10), digit (t.hour % 10), ':',
   digit (t.minute / 10), digit (t.minute % 10), ':',
   digit (t.second / 10), digit (t.second % 10)] ++
  (if t.microsecond = 0 then [] else
    ['.', digit (t.microsecond / 100000), digit (t.microsecond / 10000 % 10),
     digit (t.microsecond / 1000 % 10), digit (t.microsecond / 100 % 10),
     digit (t.microsecond / 10 % 10), digit (t.microsecond % 10)])

/-- Embedding of `datetime.isoformat()`. -/
def isoformat (t : DateTime) : String := String.mk (isoChars t)

/-- The timestamp string both handlers build:
`datetime.utcnow().isoformat() + "Z"`. -/
def timestampStr (t : DateTime) : String := isoformat t ++ "Z"

/-- Linear (epoch) position of a civil time, in microseconds: day number from
the proleptic Gregorian civil calendar (Howard Hinnant's `days_from_civil`,
the arithmetic underlying `datetime`'s ordinal conversions) combined with the
time-of-day fields.  Used to state "two clock readings at least one second
apart". -/
def daysFromCivil (y m d : Int) : Int :=
  let yAdj : Int := if m ≤ 2 then y - 1 else y
  let era : Int := (if 0 ≤ yAdj then yAdj else yAdj - 399) / 400
  let yoe : Int := yAdj - era * 400
  let mp : Int := (m + 9) % 12
  let doy : Int := (153 * mp + 2) / 5 + d - 1
  let doe : Int := yoe * 365 + yoe / 4 - yoe / 100 + doy
  era * 146097 + doe - 719468

/-- Microseconds since the Unix epoch of a `DateTime`. -/
def toEpochMicro (t : DateTime) : Int :=
  ((daysFromCivil t.year t.month t.day) * 86400 +
    t.hour * 3600 + t.minute * 60 + t.second) * 1000000 + t.microsecond

/-- Projection of one node-metrics item, `main.py` lines 58-63:
`{"node": n["metadata"]["name"], "cpu": n["usage"]["cpu"],
"memory": n["usage"]["memory"]}`.  A missing key (Python `KeyError` /
`TypeError` inside the `try` block) is `none` and lands in the handler's
`except Exception` arm. -/
def projectItem (n : Json) : Option Json :=
  match (n.lookup "metadata").bind (Json.lookup · "name") with
  | none => none
  | some name =>
    match (n.lookup "usage").bind (Json.lookup · "cpu") with
    | none => none
    | some cpu =>
      match (n.lookup "usage").bind (Json.lookup · "memory") with
      | none => none
      | some memory =>
        some (.obj [("node", name), ("cpu", cpu), ("memory", memory)])

/-- The `for n in node_metrics.get("items", [])` loop: items are projected in
order and the first malformed item aborts the loop with its exception. -/
def projectItems : List Json → Option (List Json)
  | [] => some []
  | n :: rest =>
    match projectItem n with
    | none => none
    | some it =>
      match projectItems rest with
      | none => none
      | some its => some (it :: its)

/-- The `node_metrics.get("items", [])` read: a dict without the key yields
`[]`; a list value is iterated; anything else (non-dict payload, non-list
`items`) raises inside the `try` block (`none`). -/
def getItems : Json → Option (List Json)
  | .obj fields =>
    match lookupField fields "items" with
    | none => some []
    | some (.arr xs) => some xs
    | some _ => none
  | _ => none

/-- Embedding of the `GET /node-usage` handler (`main.py` lines 36-81).
`call` is the outcome of
`metrics_api.list_cluster_custom_object(group="metrics.k8s.io",
version="v1beta1", plural="nodes")`, `now` the value `datetime.utcnow()`
returns in the success branch.  Every branch returns a dict, which FastAPI
sends with transport status 200. -/
def node_usage (st : AppState) (call : CallResult Json) (now : DateTime) :
    Json :=
  if st.metrics_api = false then
    .obj [("mode", .str st.mode),
          ("error", .str "Metrics API not available (not connected to cluster)"),
          ("items", .arr [])]
  else
    match call with
    | .ok node_metrics =>
      match getItems node_metrics with
      | none =>
        .obj [("mode", .str st.mode),
              ("error", .str "Unexpected error: malformed metrics payload"),
              ("items", .arr [])]
      | some raw =>
        match projectItems raw with
        | none =>
          .obj [("mode", .str st.mode),
                ("error", .str "Unexpected error: malformed metrics item"),
                ("items", .arr [])]
        | some items =>
          .obj [("mode", .str st.mode),
                ("items", .arr items),
                ("timestamp", .str (timestampStr now))]
    | .apiError e =>
      .obj [("mode", .str st.mode),
            ("error", .str ("Kubernetes API error: " ++ e.reason)),
            ("hint", .str "Is metrics-server installed? Run: kubectl apply -f https://github.com/kubernetes-sigs/metrics-server/releases/latest/download/components.yaml"),
            ("items", .arr [])]
    | .failure msg =>
      .obj [("mode", .str st.mode),
            ("error", .str ("Unexpected error: " ++ msg)),
            ("items", .arr [])]

/-- Embedding of the `GET /` handler (`main.py` lines 85-128).  The four
arguments after `st` are the outcomes of the four sequential list calls
(`list_node`, `list_pod_for_all_namespaces`, `list_namespace`,
`list_service_for_all_namespaces`); the handler only reads each list's
length, so list elements are `Unit`.  The calls run in order inside one
`try`, so the first raising call determines the `except` arm and later calls
are not reached.  Every branch returns a dict (transport status 200). -/
def metrics (st : AppState) (nodesCall podsCall namespacesCall
    servicesCall : CallResult (List Unit)) (now : DateTime) : Json :=
  if st.core_v1 = false then
    .obj [("mode", .str st.mode),
          ("cluster", .obj [("nodes", .num 0), ("pods", .num 0),
                            ("namespaces", .num 0), ("services", .num 0)]),
          ("timestamp", .str (timestampStr now))]
  else
    let fail : CallResult (List Unit) → Json := fun r =>
      match r with
      | .apiError e =>
        .obj [("mode", .str "kubernetes-error"),
              ("error", .obj [("status", .num e.status),
                              ("reason", .str e.reason),
                              ("body", .str e.body)])]
      | .failure msg =>
        .obj [("mode", .str "unexpected-error"), ("error", .str msg)]
      | .ok _ => .null
    match nodesCall with
    | .ok nodes =>
      match podsCall with
      | .ok pods =>
        match namespacesCall with
        | .ok namespaces =>
          match servicesCall with
          | .ok services =>
            .obj [("mode", .str st.mode),
                  ("cluster",
                    .obj [("nodes", .num nodes.length),
                          ("pods", .num pods.length),
                          ("namespaces", .num namespaces.length),
                          ("services", .num services.length)]),
                  ("timestamp", .str (timestampStr now))]
          | r => fail r
        | r => fail r
      | r => fail r
    | r => fail r

/-- A node-metrics item of the shape the metrics API documents:
`{"metadata": {"name": ...}, "usage": {"cpu": ..., "memory": ...}}`. -/
def mkItem (name cpu memory : Json) : Json :=
  .obj [("metadata", .obj [("name", name)]),
        ("usage", .obj [("cpu", cpu), ("memory", memory)])]

/-- Shape of one emitted node-usage entry, `{node, cpu, memory}` (spec §6). -/
def isNodeUsageItem : Json → Bool
  | .obj [("node", _), ("cpu", _), ("memory", _)] => true
  | _ => false

/-- Every element of an emitted `items` array is a node-usage entry. -/
def itemsOk : List Json → Bool
  | [] => true
  | j :: rest => isNodeUsageItem j && itemsOk rest

/-- Success envelope of `GET /` (spec §6):
`{mode, cluster:{nodes,pods,namespaces,services}, timestamp}`. -/
def isMetricsSuccessShape : Json → Bool
  | .obj [("mode", .str _),
          ("cluster", .obj [("nodes", .num _), ("pods", .num _),
                            ("namespaces", .num _), ("services", .num _)]),
          ("timestamp", .str _)] => true
  | _ => false

/-- Control-plane error envelope of `GET /` (spec §6):
`{mode:"kubernetes-error", error:{status,reason,body}}`. -/
def isKubernetesErrorShape : Json → Bool
  | .obj [("mode", .str s),
          ("error", .obj [("status", .num _), ("reason", .str _),
                          ("body", .str _)])] => s == "kubernetes-error"
  | _ => false

/-- Unexpected-error envelope of `GET /` (spec §6):
`{mode:"unexpected-error", error:string}`. -/
def isUnexpectedErrorShape : Json → Bool
  | .obj [("mode", .str s), ("error", .str _)] => s == "unexpected-error"
  | _ => false

/-- The documented response shapes of `GET /` (spec §6). -/
def isMetricsBody (j : Json) : Bool :=
  isMetricsSuccessShape j || isKubernetesErrorShape j ||
    isUnexpectedErrorShape j

/-- The documented response shapes of `GET /node-usage` (spec §6): success
envelope `{mode, items, timestamp}` with well-shaped items, or the degraded
envelopes `{mode, error, items:[]}` / `{mode, error, hint, items:[]}`. -/
def isNodeUsageBody : Json → Bool
  | .obj [("mode", .str _), ("items", .arr items), ("timestamp", .str _)] =>
    itemsOk items
  | .obj [("mode", .str _), ("error", .str _), ("items", .arr [])] => true
  | .obj [("mode", .str _), ("error", .str _), ("hint", .str _),
          ("items", .arr [])] => true
  | _ => false

/-! Helper lemmas. -/

/-- Projected items have the documented entry shape. -/
theorem projectItem_shape : ∀ n it, projectItem n = some it →
    isNodeUsageItem it = true := by
  intro n it h
  unfold projectItem at h
  repeat' split at h
  all_goals cases h
  rfl

/-- A successful projection pass yields only well-shaped entries. -/
theorem projectItems_shape : ∀ raw items, projectItems raw = some items →
    itemsOk items = true := by
  intro raw
  induction raw with
  | nil => intro items h; cases h; rfl
  | cons n rest ih =>
    intro items h
    unfold projectItems at h
    cases hp : projectItem n with
    | none => rw [hp] at h; cases h
    | some it =>
      rw [hp] at h
      cases hr : projectItems rest with
      | none => rw [hr] at h; cases h
      | some its =>
        rw [hr] at h
        cases h
        simp [itemsOk, projectItem_shape n it hp, ih its hr]

/-- Projecting a list of well-formed node-metrics items succeeds and passes
name, cpu and memory through verbatim. -/
theorem projectItems_map (entries : List (Json × Json × Json)) :
    projectItems (entries.map fun e => mkItem e.1 e.2.1 e.2.2) =
      some (entries.map fun e =>
        Json.obj [("node", e.1), ("cpu", e.2.1), ("memory", e.2.2)]) := by
  induction entries with
  | nil => rfl
  | cons a rest ih =>
    simp only [List.map_cons, projectItems, ih]
    rfl

/-- Decimal digit characters are distinct. -/
theorem digit_inj : ∀ a < 10, ∀ b < 10, digit a = digit b → a = b := by decide

/-- `datetime.isoformat() + "Z"` is injective on the field ranges `datetime`
guarantees: equal timestamp strings come from equal clock readings. -/
theorem timestampStr_inj (t1 t2 : DateTime) (v1 : ValidDT t1) (v2 : ValidDT t2)
    (h : timestampStr t1 = timestampStr t2) : t1 = t2 := by
  have hd : isoChars t1 ++ ['Z'] = isoChars t2 ++ ['Z'] := congrArg String.data h
  obtain ⟨y1, mo1, d1, h1, mi1, s1, u1⟩ := t1
  obtain ⟨y2, mo2, d2, h2, mi2, s2, u2⟩ := t2
  dsimp only [ValidDT] at v1 v2
  obtain ⟨hy1a, hy1b, hmo1a, hmo1b, hd1a, hd1b, hh1, hmi1, hs1, hu1b⟩ := v1
  obtain ⟨hy2a, hy2b, hmo2a, hmo2b, hd2a, hd2b, hh2, hmi2, hs2, hu2b⟩ := v2
  simp only [DateTime.mk.injEq]
  by_cases hz1 : u1 = 0 <;> by_cases hz2 : u2 = 0 <;>
    simp [isoChars, hz1, hz2, List.cons.injEq] at hd
  · -- both microsecond fields are zero: 14 digit positions
    obtain ⟨e1, e2, e3, e4, e5, e6, e7, e8, e9, e10, e11, e12, e13, e14⟩ := hd
    refine ⟨?_, ?_, ?_, ?_, ?_, ?_, by omega⟩
    · have q1 := digit_inj _ (by omega) _ (by omega) e1
      have q2 := digit_inj _ (by omega) _ (by omega) e2
      have q3 := digit_inj _ (by omega) _ (by omega) e3
      have q4 := digit_inj _ (by omega) _ (by omega) e4
      omega
    · have q1 := digit_inj _ (by omega) _ (by omega) e5
      have q2 := digit_inj _ (by omega) _ (by omega) e6
      omega
    · have q1 := digit_inj _ (by omega) _ (by omega) e7
      have q2 := digit_inj _ (by omega) _ (by omega) e8
      omega
    · have q1 := digit_inj _ (by omega) _ (by omega) e9
      have q2 := digit_inj _ (by omega) _ (by omega) e10
      omega
    · have q1 := digit_inj _ (by omega) _ (by omega) e11
      have q2 := digit_inj _ (by omega) _ (by omega) e12
      omega
    · have q1 := digit_inj _ (by omega) _ (by omega) e13
      have q2 := digit_inj _ (by omega) _ (by omega) e14
      omega
  · -- both microsecond fields nonzero: 14 + 6 digit positions
    obtain ⟨e1, e2, e3, e4, e5, e6, e7, e8, e9, e10, e11, e12, e13, e14,
      f1, f2, f3, f4, f5, f6⟩ := hd
    refine ⟨?_, ?_, ?_, ?_, ?_, ?_, ?_⟩
    · have q1 := digit_inj _ (by omega) _ (by omega) e1
      have q2 := digit_inj _ (by omega) _ (by omega) e2
      have q3 := digit_inj _ (by omega) _ (by omega) e3
      have q4 := digit_inj _ (by omega) _ (by omega) e4
      omega
    · have q1 := digit_inj _ (by omega) _ (by omega) e5
      have q2 := digit_inj _ (by omega) _ (by omega) e6
      omega
    · have q1 := digit_inj _ (by omega) _ (by omega) e7
      have q2 := digit_inj _ (by omega) _ (by omega) e8
      omega
    · have q1 := digit_inj _ (by omega) _ (by omega) e9
      have q2 := digit_inj _ (by omega) _ (by omega) e10
      omega
    · have q1 := digit_inj _ (by omega) _ (by omega) e11
      have q2 := digit_inj _ (by omega) _ (by omega) e12
      omega
    · have q1 := digit_inj _ (by omega) _ (by omega) e13
      have q2 := digit_inj _ (by omega) _ (by omega) e14
      omega
    · have q1 := digit_inj _ (by omega) _ (by omega) f1
      have q2 := digit_inj _ (by omega) _ (by omega) f2
      have q3 := digit_inj _ (by omega) _ (by omega) f3
      have q4 := digit_inj _ (by omega) _ (by omega) f4
      have q5 := digit_inj _ (by omega) _ (by omega) f5
      have q6 := digit_inj _ (by omega) _ (by omega) f6
      omega

/-! Claim theorems. -/

/-- C1: at startup exactly one mode from `{kubernetes, local, mock}` is
selected, in strict priority order: in-cluster success yields `kubernetes`
(and the local tier is never consulted — the result is the same for every
outcome of the local load); the local tier runs only after the in-cluster
load fails with `ConfigException`, with success yielding `local`; `mock` is
selected only when both loads fail with `ConfigException`.  The result is the
immutable module state: no later code writes `mode`, so the selected mode
never changes afterwards (the handlers `metrics` and `node_usage` only read
`AppState`). -/
theorem mode_resolution_priority :
    (∀ r, resolveConfig .success r = .ok ⟨"kubernetes", true, true⟩) ∧
    resolveConfig .configException .success = .ok ⟨"local", true, true⟩ ∧
    resolveConfig .configException .configException = .ok ⟨"mock", false, false⟩ ∧
    (∀ inc kc st, resolveConfig inc kc = .ok st →
      st.mode = "kubernetes" ∨ st.mode = "local" ∨ st.mode = "mock") := by
  refine ⟨fun r => rfl, rfl, rfl, fun inc kc st h => ?_⟩
  cases inc <;> cases kc <;> simp_all [resolveConfig] <;> simp [← h]

theorem mode_resolution_priority_witness :
    (AppState.mk "kubernetes" true true).mode = "kubernetes" ∨
    (AppState.mk "kubernetes" true true).mode = "local" ∨
    (AppState.mk "kubernetes" true true).mode = "mock" :=
  mode_resolution_priority.2.2.2 .success .success ⟨"kubernetes", true, true⟩ rfl

/-- C7: only `ConfigException` triggers the fallback to the next tier; any
other exception raised while loading the in-cluster or local configuration is
not caught by the chain and propagates out of the resolution step (modelled
as `Except.error`) instead of cascading to mock mode. -/
theorem fallback_only_on_config_exception :
    (∀ e r, resolveConfig (.otherError e) r = .error e) ∧
    (∀ e, resolveConfig .configException (.otherError e) = .error e) := by
  exact ⟨fun e r => by cases r <;> rfl, fun e => rfl⟩

/-- C3: whenever the resolved mode is `mock` (no client handles), `GET /`
returns the all-zero cluster counts with the mode and a timestamp, and
`GET /node-usage` returns an empty `items` list with the unavailability
message — both deterministically, and independently of every outbound-call
outcome (the quantification over all call results shows no call's result is
consulted, i.e. no network call is needed). -/
theorem mock_mode_deterministic :
    ∀ (n p ns sv : CallResult (List Unit)) (call : CallResult Json)
      (now : DateTime),
      metrics ⟨"mock", false, false⟩ n p ns sv now =
        .obj [("mode", .str "mock"),
              ("cluster", .obj [("nodes", .num 0), ("pods", .num 0),
                                ("namespaces", .num 0), ("services", .num 0)]),
              ("timestamp", .str (timestampStr now))] ∧
      node_usage ⟨"mock", false, false⟩ call now =
        .obj [("mode", .str "mock"),
              ("error", .str "Metrics API not available (not connected to cluster)"),
              ("items", .arr [])] :=
  fun _ _ _ _ _ _ => ⟨rfl, rfl⟩

/-- C8: when a live handle is available and all four list queries succeed,
the returned cluster counts are exactly the lengths of the four lists
returned by the control plane. -/
theorem metrics_success_counts :
    ∀ (m : String) (l1 l2 l3 l4 : List Unit) (now : DateTime),
      metrics ⟨m, true, true⟩ (.ok l1) (.ok l2) (.ok l3) (.ok l4) now =
        .obj [("mode", .str m),
              ("cluster", .obj [("nodes", .num l1.length),
                                ("pods", .num l2.length),
                                ("namespaces", .num l3.length),
                                ("services", .num l4.length)]),
              ("timestamp", .str (timestampStr now))] :=
  fun _ _ _ _ _ _ => rfl

/-- C4: whichever of the four list queries of `GET /` raises `ApiException`
first, the response body is `{mode: "kubernetes-error", error: {status,
reason, body}}` with the exception's fields carried through verbatim; any
other exception yields `{mode: "unexpected-error", error: str(e)}`. -/
theorem metrics_error_classification :
    ∀ (m : String) (e : ApiException) (msg : String) (l1 l2 l3 : List Unit)
      (r2 r3 r4 : CallResult (List Unit)) (now : DateTime),
      (metrics ⟨m, true, true⟩ (.apiError e) r2 r3 r4 now =
          .obj [("mode", .str "kubernetes-error"),
                ("error", .obj [("status", .num e.status),
                                ("reason", .str e.reason),
                                ("body", .str e.body)])] ∧
        metrics ⟨m, true, true⟩ (.ok l1) (.apiError e) r3 r4 now =
          .obj [("mode", .str "kubernetes-error"),
                ("error", .obj [("status", .num e.status),
                                ("reason", .str e.reason),
                                ("body", .str e.body)])] ∧
        metrics ⟨m, true, true⟩ (.ok l1) (.ok l2) (.apiError e) r4 now =
          .obj [("mode", .str "kubernetes-error"),
                ("error", .obj [("status", .num e.status),
                                ("reason", .str e.reason),
                                ("body", .str e.body)])] ∧
        metrics ⟨m, true, true⟩ (.ok l1) (.ok l2) (.ok l3) (.apiError e) now =
          .obj [("mode", .str "kubernetes-error"),
                ("error", .obj [("status", .num e.status),
                                ("reason", .str e.reason),
                                ("body", .str e.body)])]) ∧
      (metrics ⟨m, true, true⟩ (.failure msg) r2 r3 r4 now =
          .obj [("mode", .str "unexpected-error"), ("error", .str msg)] ∧
        metrics ⟨m, true, true⟩ (.ok l1) (.failure msg) r3 r4 now =
          .obj [("mode", .str "unexpected-error"), ("error", .str msg)] ∧
        metrics ⟨m, true, true⟩ (.ok l1) (.ok l2) (.failure msg) r4 now =
          .obj [("mode", .str "unexpected-error"), ("error", .str msg)] ∧
        metrics ⟨m, true, true⟩ (.ok l1) (.ok l2) (.ok l3) (.failure msg) now =
          .obj [("mode", .str "unexpected-error"), ("error", .str msg)]) :=
  fun _ _ _ _ _ _ _ _ _ _ => ⟨⟨rfl, rfl, rfl, rfl⟩, rfl, rfl, rfl, rfl⟩

/-- C5: every failure of the metrics-endpoint query in `GET /node-usage`
still yields `items: []`; an `ApiException` additionally carries the error
message and the remediation hint pointing at installing metrics-server,
while any other exception carries only the generic `Unexpected error`
message and no hint field. -/
theorem node_usage_error_classification :
    ∀ (m : String) (e : ApiException) (msg : String) (now : DateTime),
      node_usage ⟨m, true, true⟩ (.apiError e) now =
        .obj [("mode", .str m),
              ("error", .str ("Kubernetes API error: " ++ e.reason)),
              ("hint", .str "Is metrics-server installed? Run: kubectl apply -f https://github.com/kubernetes-sigs/metrics-server/releases/latest/download/components.yaml"),
              ("items", .arr [])] ∧
      node_usage ⟨m, true, true⟩ (.failure msg) now =
        .obj [("mode", .str m),
              ("error", .str ("Unexpected error: " ++ msg)),
              ("items", .arr [])] :=
  fun _ _ _ _ => ⟨rfl, rfl⟩

/-- C6: every item returned by the metrics-endpoint query is emitted as
exactly `{node: metadata.name, cpu: usage.cpu, memory: usage.memory}` with
the cpu and memory values passed through verbatim (no unit conversion); in
particular `usage.cpu = "250m"`, `usage.memory = "512Mi"` come back
unchanged. -/
theorem node_usage_verbatim_passthrough :
    ∀ (m : String) (now : DateTime) (entries : List (Json × Json × Json)),
      node_usage ⟨m, true, true⟩
          (.ok (.obj [("items", .arr (entries.map fun e =>
            mkItem e.1 e.2.1 e.2.2))])) now =
        .obj [("mode", .str m),
              ("items", .arr (entries.map fun e =>
                .obj [("node", e.1), ("cpu", e.2.1), ("memory", e.2.2)])),
              ("timestamp", .str (timestampStr now))] ∧
      node_usage ⟨m, true, true⟩
          (.ok (.obj [("items", .arr
            [mkItem (.str "node-1") (.str "250m") (.str "512Mi")])])) now =
        .obj [("mode", .str m),
              ("items", .arr [.obj [("node", .str "node-1"),
                                    ("cpu", .str "250m"),
                                    ("memory", .str "512Mi")]]),
              ("timestamp", .str (timestampStr now))] := by
  have key : ∀ (m : String) (now : DateTime)
      (entries : List (Json × Json × Json)),
      node_usage ⟨m, true, true⟩
          (.ok (.obj [("items", .arr (entries.map fun e =>
            mkItem e.1 e.2.1 e.2.2))])) now =
        .obj [("mode", .str m),
              ("items", .arr (entries.map fun e =>
                .obj [("node", e.1), ("cpu", e.2.1), ("memory", e.2.2)])),
              ("timestamp", .str (timestampStr now))] := by
    intro m now entries
    simp [node_usage, getItems, lookupField, projectItems_map]
  intro m now entries
  exact ⟨key m now entries,
    key m now [(.str "node-1", .str "250m", .str "512Mi")]⟩

/-- C2: for every startup state, every outcome of the outbound calls
(success, `ApiException`, any other exception — including a malformed
success payload) and every clock reading, both handlers return normally with
a body matching one of the documented shapes of spec §6; the embedding's
totality is the "no exception escapes, transport status 200" guarantee. -/
theorem always_200_well_formed :
    ∀ (st : AppState) (n p ns sv : CallResult (List Unit))
      (call : CallResult Json) (now : DateTime),
      isMetricsBody (metrics st n p ns sv now) = true ∧
      isNodeUsageBody (node_usage st call now) = true := by
  intro st n p ns sv call now
  rcases st with ⟨m, cv, ma⟩
  constructor
  · cases cv
    · rfl
    · cases n <;> cases p <;> cases ns <;> cases sv <;> rfl
  · cases ma
    · rfl
    · cases call with
      | ok payload =>
        cases hg : getItems payload with
        | none => simp [node_usage, hg, isNodeUsageBody]
        | some raw =>
          cases hp : projectItems raw with
          | none => simp [node_usage, hg, hp, isNodeUsageBody]
          | some items =>
            simp [node_usage, hg, hp, isNodeUsageBody,
              projectItems_shape raw items hp]
      | apiError e => rfl
      | failure msg => rfl

/-- C10: every `GET /node-usage` response keeps `mode` equal to the
startup-resolved mode string — it never switches to an error sentinel —
whereas the error responses of `GET /` replace `mode` with
`kubernetes-error` or `unexpected-error`, values distinct from every
startup mode. -/
theorem node_usage_mode_stability :
    (∀ (st : AppState) (call : CallResult Json) (now : DateTime),
      (node_usage st call now).lookup "mode" = some (.str st.mode)) ∧
    (∀ (m : String) (e : ApiException) (r2 r3 r4 : CallResult (List Unit))
      (now : DateTime),
      (metrics ⟨m, true, true⟩ (.apiError e) r2 r3 r4 now).lookup "mode" =
        some (.str "kubernetes-error")) ∧
    (∀ (m msg : String) (r2 r3 r4 : CallResult (List Unit)) (now : DateTime),
      (metrics ⟨m, true, true⟩ (.failure msg) r2 r3 r4 now).lookup "mode" =
        some (.str "unexpected-error")) ∧
    ((("kubernetes-error" : String) == "kubernetes") = false ∧
      (("kubernetes-error" : String) == "local") = false ∧
      (("kubernetes-error" : String) == "mock") = false ∧
      (("unexpected-error" : String) == "kubernetes") = false ∧
      (("unexpected-error" : String) == "local") = false ∧
      (("unexpected-error" : String) == "mock") = false) := by
  refine ⟨?_, fun m e r2 r3 r4 now => rfl, fun m msg r2 r3 r4 now => rfl,
    by decide⟩
  intro st call now
  rcases st with ⟨m, cv, ma⟩
  cases ma
  · rfl
  · cases call with
    | ok payload =>
      cases hg : getItems payload with
      | none => simp [node_usage, hg, Json.lookup, lookupField]
      | some raw =>
        cases hp : projectItems raw with
        | none => simp [node_usage, hg, hp, Json.lookup, lookupField]
        | some items => simp [node_usage, hg, hp, Json.lookup, lookupField]
    | apiError e => rfl
    | failure msg => rfl

/-- C9: every successful response of `GET /` (including the mock-mode
all-zero response) and every successful response of `GET /node-usage`
carries a `timestamp` equal to the formatted clock reading taken when the
response was built (`datetime.utcnow().isoformat() + "Z"`): it is
`Z`-suffixed, and two responses built from clock readings at least one
second apart (one million microseconds of linear time) carry different
timestamp strings — the format keeps at least second precision. -/
theorem timestamp_fresh_and_distinct :
    (∀ (m : String) (l1 l2 l3 l4 : List Unit) (now : DateTime),
      (metrics ⟨m, true, true⟩ (.ok l1) (.ok l2) (.ok l3) (.ok l4)
          now).lookup "timestamp" = some (.str (timestampStr now))) ∧
    (∀ (m : String) (n p ns sv : CallResult (List Unit)) (now : DateTime),
      (metrics ⟨m, false, false⟩ n p ns sv now).lookup "timestamp" =
        some (.str (timestampStr now))) ∧
    (∀ (m : String) (entries : List (Json × Json × Json)) (now : DateTime),
      (node_usage ⟨m, true, true⟩
          (.ok (.obj [("items", .arr (entries.map fun e =>
            mkItem e.1 e.2.1 e.2.2))])) now).lookup "timestamp" =
        some (.str (timestampStr now))) ∧
    (∀ t : DateTime, ∃ s : String, timestampStr t = s ++ "Z") ∧
    (∀ t1 t2 : DateTime, ValidDT t1 → ValidDT t2 →
      toEpochMicro t1 + 1000000 ≤ toEpochMicro t2 →
      timestampStr t1 ≠ timestampStr t2) := by
  refine ⟨fun m l1 l2 l3 l4 now => rfl, fun m n p ns sv now => ?_,
    fun m entries now => ?_, fun t => ⟨isoformat t, rfl⟩,
    fun t1 t2 v1 v2 hgap heq => ?_⟩
  · cases n <;> cases p <;> cases ns <;> cases sv <;> rfl
  · simp [node_usage, getItems, lookupField, projectItems_map,
      Json.lookup]
  · have : t1 = t2 := timestampStr_inj t1 t2 v1 v2 heq
    subst this
    omega

theorem timestamp_fresh_and_distinct_witness :
    timestampStr ⟨2024, 5, 17, 12, 0, 0, 0⟩ ≠
      timestampStr ⟨2024, 5, 17, 12, 0, 1, 0⟩ :=
  timestamp_fresh_and_distinct.2.2.2.2 ⟨2024, 5, 17, 12, 0, 0, 0⟩
    ⟨2024, 5, 17, 12, 0, 1, 0⟩ (by decide) (by decide) (by decide)

end KubernetesMetrics
